import Mathlib

/-! Shallow embedding of the completion-polling logic of
`test_mongodb_pipeline.py` (`monitor_results`) and of the result-storage
path of `lambda_sentiment_analysis.py` (`call_sagemaker_endpoint`,
`store_result_in_mongodb`).

Modelling conventions:
* The result store is observed only through `count_documents({})`.  The
  environment is a stream `cnt : Nat → Except String Nat`: call number `i`
  of `count_documents` either returns a count or raises an exception whose
  message is the `String`.  Call `0` is the baseline read, call `k + 1` is
  the poll of loop iteration `k`.
* Wall-clock time advances only through `time.sleep(2)`; queries are
  instantaneous.  At the start of loop iteration `k` the elapsed time is
  `pollInterval * k`, which is what `time.time() - start_time` evaluates to.
* The Python function returns a `bool` and prints messages.  `RunResult`
  records the outcome (return value together with the count named in the
  final message), the elapsed time at return, the list of progress counts
  printed by unsuccessful polls, and the store operations performed.
* Referencing the local variable `new_results` after a loop that never ran
  raises `NameError`; `count_documents` raising propagates the exception.
  Both are `MonitorError`s.
-/

namespace SentimentPipeline

/-- The fixed poll interval: `time.sleep(2)` in `monitor_results`. -/
def pollInterval : Nat := 2

/-- Terminal outcome of `monitor_results`: `completed r` is `return True`
with the success message naming `r` results, `timedOut r` is `return False`
with the timeout message naming `r` results. -/
inductive Outcome where
  | completed (reported : Int)
  | timedOut (reported : Int)
  deriving DecidableEq, Repr

/-- Unhandled exceptions escaping `monitor_results`: a `count_documents`
call raising (identified by its call index, carrying the exception's
message as the cause), or the `NameError` from reading `new_results` when
the loop body never executed. -/
inductive MonitorError where
  | storeError (call : Nat) (cause : String)
  | nameError
  deriving DecidableEq, Repr

/-- Operations a client can perform on a MongoDB collection, as used across
this repository: counting, a find query, inserting, deleting. -/
inductive StoreOp where
  | countDocuments
  | findQuery
  | insertOne (doc : String)
  | deleteOne (doc : String)
  deriving DecidableEq, Repr

/-- Effect of one store operation on the collection contents. -/
def applyOp (store : List String) (op : StoreOp) : List String :=
  match op with
  | .countDocuments => store
  | .findQuery => store
  | .insertOne d => store ++ [d]
  | .deleteOne d => store.erase d

/-- Effect of a sequence of store operations on the collection contents. -/
def applyOps (ops : List StoreOp) (store : List String) : List String :=
  ops.foldl applyOp store

/-- Everything observable about one run of `monitor_results`: the returned
value or escaped exception, the elapsed wall-clock time at exit, the
progress counts printed by unsuccessful polls, and the store operations
performed on the results collection. -/
structure RunResult where
  result : Except MonitorError Outcome
  duration : Nat
  progress : List Int
  ops : List StoreOp

/-- The `while time.time() - start_time < timeout` loop of
`monitor_results`, entered at iteration `k` with the given captured
`baseline` and with `lastNew` the current value of the local variable
`new_results` (`none` when not yet assigned). -/
def monitorFrom (cnt : Nat → Except String Nat) (expected timeout : Int)
    (baseline : Int) (lastNew : Option Int) (k : Nat) : RunResult :=
  if _h : ((pollInterval * k : Nat) : Int) < timeout then
    match cnt (k + 1) with
    | .error e =>
        { result := .error (.storeError (k + 1) e), duration := pollInterval * k,
          progress := [], ops := [.countDocuments] }
    | .ok c =>
        let newResults : Int := (c : Int) - baseline
        if expected ≤ newResults then
          { result := .ok (.completed expected), duration := pollInterval * k,
            progress := [], ops := [.countDocuments] }
        else
          let r := monitorFrom cnt expected timeout baseline (some newResults) (k + 1)
          { result := r.result, duration := r.duration,
            progress := newResults :: r.progress, ops := .countDocuments :: r.ops }
  else
    { result := lastNew.elim (.error .nameError) (fun n => .ok (.timedOut n)),
      duration := pollInterval * k, progress := [], ops := [] }
termination_by (timeout - (pollInterval * k : Nat)).toNat
decreasing_by
  simp only [pollInterval] at *
  omega

/-- `monitor_results(results_collection, expected_count, timeout)`: capture
`initial_count = count_documents({})`, then poll in a loop. -/
def monitor_results (cnt : Nat → Except String Nat) (expected timeout : Int) :
    RunResult :=
  match cnt 0 with
  | .error e =>
      { result := .error (.storeError 0 e), duration := 0,
        progress := [], ops := [.countDocuments] }
  | .ok b =>
      let r := monitorFrom cnt expected timeout (b : Int) none 0
      { r with ops := .countDocuments :: r.ops }

/-- A store whose `count_documents` calls always succeed, returning the
reading stream `g`. -/
def pureCnt (g : Nat → Nat) : Nat → Except String Nat := fun i => .ok (g i)

/-- Unfolding `monitorFrom` when the loop condition fails: the loop exits,
reporting timeout from `new_results`, or `NameError` when that variable was
never assigned. -/
theorem monitorFrom_exit_eq (cnt : Nat → Except String Nat)
    (expected timeout baseline : Int) (lastNew : Option Int) (k : Nat)
    (hge : ¬ ((pollInterval * k : Nat) : Int) < timeout) :
    monitorFrom cnt expected timeout baseline lastNew k =
      { result := lastNew.elim (.error .nameError) (fun n => .ok (.timedOut n)),
        duration := pollInterval * k, progress := [], ops := [] } := by
  rw [monitorFrom.eq_def, dif_neg hge]

/-- Unfolding `monitorFrom` when the loop runs and the count query raises:
the exception propagates. -/
theorem monitorFrom_raise_eq (cnt : Nat → Except String Nat)
    (expected timeout baseline : Int) (lastNew : Option Int) (k : Nat)
    (msg : String)
    (hlt : ((pollInterval * k : Nat) : Int) < timeout)
    (hc : cnt (k + 1) = .error msg) :
    monitorFrom cnt expected timeout baseline lastNew k =
      { result := .error (.storeError (k + 1) msg), duration := pollInterval * k,
        progress := [], ops := [.countDocuments] } := by
  rw [monitorFrom.eq_def, dif_pos hlt, hc]

/-- Unfolding `monitorFrom` when the loop runs, the query succeeds, and the
target is reached: `return True` with the success message. -/
theorem monitorFrom_done_eq (cnt : Nat → Except String Nat)
    (expected timeout baseline : Int) (lastNew : Option Int) (k : Nat)
    (c : Nat)
    (hlt : ((pollInterval * k : Nat) : Int) < timeout)
    (hc : cnt (k + 1) = .ok c)
    (hdone : expected ≤ (c : Int) - baseline) :
    monitorFrom cnt expected timeout baseline lastNew k =
      { result := .ok (.completed expected), duration := pollInterval * k,
        progress := [], ops := [.countDocuments] } := by
  rw [monitorFrom.eq_def, dif_pos hlt, hc]
  simp only [if_pos hdone]

/-- Unfolding `monitorFrom` when the loop runs, the query succeeds, and the
target is not reached: print the progress count, sleep, iterate. -/
theorem monitorFrom_cont_eq (cnt : Nat → Except String Nat)
    (expected timeout baseline : Int) (lastNew : Option Int) (k : Nat)
    (c : Nat)
    (hlt : ((pollInterval * k : Nat) : Int) < timeout)
    (hc : cnt (k + 1) = .ok c)
    (hcont : ¬ expected ≤ (c : Int) - baseline) :
    monitorFrom cnt expected timeout baseline lastNew k =
      { result := (monitorFrom cnt expected timeout baseline
          (some ((c : Int) - baseline)) (k + 1)).result,
        duration := (monitorFrom cnt expected timeout baseline
          (some ((c : Int) - baseline)) (k + 1)).duration,
        progress := ((c : Int) - baseline) :: (monitorFrom cnt expected timeout baseline
          (some ((c : Int) - baseline)) (k + 1)).progress,
        ops := .countDocuments :: (monitorFrom cnt expected timeout baseline
          (some ((c : Int) - baseline)) (k + 1)).ops } := by
  rw [monitorFrom.eq_def, dif_pos hlt, hc]
  simp only [if_neg hcont]

/-- For a store whose queries all succeed, `monitor_results` captures the
baseline from call `0` of `count_documents` and runs the loop; only the
operation trace gains the baseline query. -/
theorem monitor_results_pure_eq (g : Nat → Nat) (expected timeout : Int) :
    monitor_results (pureCnt g) expected timeout =
      { result := (monitorFrom (pureCnt g) expected timeout (g 0 : Int) none 0).result,
        duration := (monitorFrom (pureCnt g) expected timeout (g 0 : Int) none 0).duration,
        progress := (monitorFrom (pureCnt g) expected timeout (g 0 : Int) none 0).progress,
        ops := .countDocuments ::
          (monitorFrom (pureCnt g) expected timeout (g 0 : Int) none 0).ops } := rfl

/-- If some poll `j ≥ k` happens strictly before the deadline and its
reading reaches the target, the loop started at iteration `k` returns the
success outcome, no later than poll `j`. -/
theorem monitorFrom_reach (g : Nat → Nat) (expected timeout baseline : Int) :
    ∀ (d k : Nat) (lastNew : Option Int) (j : Nat), j = k + d →
      ((pollInterval * j : Nat) : Int) < timeout →
      expected ≤ (g (j + 1) : Int) - baseline →
      (monitorFrom (pureCnt g) expected timeout baseline lastNew k).result =
        .ok (.completed expected) ∧
      (monitorFrom (pureCnt g) expected timeout baseline lastNew k).duration ≤
        pollInterval * j := by
  intro d
  induction d with
  | zero =>
    intro k lastNew j hj hlt hge
    have hjk : j = k := by omega
    rw [hjk] at hlt hge ⊢
    rw [monitorFrom_done_eq (pureCnt g) expected timeout baseline lastNew k (g (k + 1))
      hlt rfl hge]
    exact ⟨rfl, le_rfl⟩
  | succ d ih =>
    intro k lastNew j hj hlt hge
    have hk : ((pollInterval * k : Nat) : Int) < timeout := by
      simp only [pollInterval] at hlt ⊢
      omega
    by_cases hdone : expected ≤ (g (k + 1) : Int) - baseline
    · rw [monitorFrom_done_eq (pureCnt g) expected timeout baseline lastNew k (g (k + 1))
        hk rfl hdone]
      refine ⟨rfl, ?_⟩
      show pollInterval * k ≤ pollInterval * j
      simp only [pollInterval]
      omega
    · rw [monitorFrom_cont_eq (pureCnt g) expected timeout baseline lastNew k (g (k + 1))
        hk rfl hdone]
      exact ih (k + 1) (some ((g (k + 1) : Int) - baseline)) j (by omega) hlt hge

/-- If no poll that happens strictly before the deadline reaches the
target, the loop started at a running iteration `k` returns the timeout
outcome with a reported count below the target, at a time within one poll
interval past the deadline. -/
theorem monitorFrom_timeout (g : Nat → Nat) (expected timeout baseline : Int)
    (hall : ∀ j : Nat, ((pollInterval * j : Nat) : Int) < timeout →
      (g (j + 1) : Int) - baseline < expected) :
    ∀ (d k : Nat) (lastNew : Option Int),
      timeout ≤ ((pollInterval * (k + d) : Nat) : Int) →
      ((pollInterval * k : Nat) : Int) < timeout →
      ∃ m : Int, m < expected ∧
        (monitorFrom (pureCnt g) expected timeout baseline lastNew k).result =
          .ok (.timedOut m) ∧
        timeout ≤ ((monitorFrom (pureCnt g) expected timeout baseline lastNew k).duration : Int) ∧
        ((monitorFrom (pureCnt g) expected timeout baseline lastNew k).duration : Int) <
          timeout + pollInterval := by
  intro d
  induction d with
  | zero =>
    intro k lastNew hd hk
    exfalso
    simp only [pollInterval] at hd hk
    omega
  | succ d ih =>
    intro k lastNew hd hk
    have hn : (g (k + 1) : Int) - baseline < expected := hall k hk
    rw [monitorFrom_cont_eq (pureCnt g) expected timeout baseline lastNew k (g (k + 1))
      hk rfl (by omega)]
    by_cases hk1 : ((pollInterval * (k + 1) : Nat) : Int) < timeout
    · obtain ⟨m, hm, hres, hd1, hd2⟩ :=
        ih (k + 1) (some ((g (k + 1) : Int) - baseline))
          (by simp only [pollInterval] at hd ⊢; omega) hk1
      exact ⟨m, hm, hres, hd1, hd2⟩
    · rw [monitorFrom_exit_eq (pureCnt g) expected timeout baseline
        (some ((g (k + 1) : Int) - baseline)) (k + 1) hk1]
      refine ⟨(g (k + 1) : Int) - baseline, hn, rfl, ?_, ?_⟩
      · show timeout ≤ ((pollInterval * (k + 1) : Nat) : Int)
        simp only [pollInterval] at hk1 ⊢
        omega
      · show ((pollInterval * (k + 1) : Nat) : Int) < timeout + pollInterval
        simp only [pollInterval] at hk ⊢
        omega

/-- The progress counts printed by the loop started at iteration `k` are
exactly `count − baseline` for the successive polls `k, k+1, …`. -/
theorem monitorFrom_progress_formula (g : Nat → Nat)
    (expected timeout baseline : Int) :
    ∀ (d k : Nat) (lastNew : Option Int),
      timeout ≤ ((pollInterval * (k + d) : Nat) : Int) →
      ∃ len : Nat,
        (monitorFrom (pureCnt g) expected timeout baseline lastNew k).progress =
          (List.range len).map (fun i => (g (k + i + 1) : Int) - baseline) := by
  intro d
  induction d with
  | zero =>
    intro k lastNew hd
    rw [monitorFrom_exit_eq (pureCnt g) expected timeout baseline lastNew k
      (by simp only [pollInterval] at hd ⊢; omega)]
    exact ⟨0, rfl⟩
  | succ d ih =>
    intro k lastNew hd
    by_cases hk : ((pollInterval * k : Nat) : Int) < timeout
    · by_cases hdone : expected ≤ (g (k + 1) : Int) - baseline
      · rw [monitorFrom_done_eq (pureCnt g) expected timeout baseline lastNew k (g (k + 1))
          hk rfl hdone]
        exact ⟨0, rfl⟩
      · rw [monitorFrom_cont_eq (pureCnt g) expected timeout baseline lastNew k (g (k + 1))
          hk rfl hdone]
        obtain ⟨len, hlen⟩ := ih (k + 1) (some ((g (k + 1) : Int) - baseline))
          (by simp only [pollInterval] at hd ⊢; omega)
        refine ⟨len + 1, ?_⟩
        simp only [hlen, List.range_succ_eq_map, List.map_cons, List.map_map]
        congr 1
        apply List.map_congr_left
        intro i _
        have hidx : k + 1 + i + 1 = k + (i + 1) + 1 := by omega
        simp [Function.comp_apply, Nat.succ_eq_add_one, hidx]
    · rw [monitorFrom_exit_eq (pureCnt g) expected timeout baseline lastNew k hk]
      exact ⟨0, rfl⟩

/-- If every poll before `k` succeeded without reaching the target and the
count query of poll `k` (made strictly before the deadline) raises, the
exception escapes the loop, preserving its cause. -/
theorem monitorFrom_store_error (cnt : Nat → Except String Nat)
    (expected timeout baseline : Int) (msg : String) :
    ∀ (d k0 : Nat) (lastNew : Option Int) (k : Nat), k = k0 + d →
      (∀ j : Nat, k0 ≤ j → j < k → ∃ c : Nat, cnt (j + 1) = .ok c ∧
        (c : Int) - baseline < expected) →
      ((pollInterval * k : Nat) : Int) < timeout →
      cnt (k + 1) = .error msg →
      (monitorFrom cnt expected timeout baseline lastNew k0).result =
        .error (.storeError (k + 1) msg) := by
  intro d
  induction d with
  | zero =>
    intro k0 lastNew k hk _ hlt herr
    have hkk : k = k0 := by omega
    rw [hkk] at hlt herr ⊢
    rw [monitorFrom_raise_eq cnt expected timeout baseline lastNew k0 msg hlt herr]
  | succ d ih =>
    intro k0 lastNew k hk hpre hlt herr
    have hk0 : ((pollInterval * k0 : Nat) : Int) < timeout := by
      simp only [pollInterval] at hlt ⊢
      omega
    obtain ⟨c, hc, hcl⟩ := hpre k0 le_rfl (by omega)
    rw [monitorFrom_cont_eq cnt expected timeout baseline lastNew k0 c hk0 hc (by omega)]
    exact ih (k0 + 1) (some ((c : Int) - baseline)) k (by omega)
      (fun j hj1 hj2 => hpre j (by omega) hj2) hlt herr

/-- The loop performs only `count_documents` operations on the results
collection, on every path. -/
theorem monitorFrom_ops_count (cnt : Nat → Except String Nat)
    (expected timeout baseline : Int) (lastNew : Option Int) (k : Nat) :
    ∃ n : Nat, (monitorFrom cnt expected timeout baseline lastNew k).ops =
      List.replicate n .countDocuments := by
  induction lastNew, k using monitorFrom.induct cnt expected timeout baseline with
  | case1 lastNew k hlt e he =>
    rw [monitorFrom_raise_eq cnt expected timeout baseline lastNew k e hlt he]
    exact ⟨1, rfl⟩
  | case2 lastNew k hlt c hc nr hdone =>
    rw [monitorFrom_done_eq cnt expected timeout baseline lastNew k c hlt hc hdone]
    exact ⟨1, rfl⟩
  | case3 lastNew k hlt c hc nr hcont ih =>
    rw [monitorFrom_cont_eq cnt expected timeout baseline lastNew k c hlt hc hcont]
    obtain ⟨n, hn⟩ := ih
    exact ⟨n + 1, congrArg (List.cons StoreOp.countDocuments) hn⟩
  | case4 lastNew k hge =>
    rw [monitorFrom_exit_eq cnt expected timeout baseline lastNew k hge]
    exact ⟨0, rfl⟩

/-- Replaying any number of `count_documents` operations leaves the
collection contents unchanged. -/
theorem applyOps_replicate_count (n : Nat) (store : List String) :
    applyOps (List.replicate n .countDocuments) store = store := by
  induction n with
  | zero => rfl
  | succ n ih => simpa [applyOps, List.replicate_succ, applyOp] using ih

/-! Embedding of the storage path of `lambda_sentiment_analysis.py`.
Confidence values (floats in the source) are modelled as rationals; the
two wall-clock timestamp fields are not modelled. -/

/-- The fields of the incoming review document that
`call_sagemaker_endpoint` and `store_result_in_mongodb` read:
`document.get('review', '')`, `document.get('movie_title')`,
`document.get('user_id')`, `document.get('_id')`. -/
structure IncomingDoc where
  docId : String
  review : Option String
  movie_title : Option String
  user_id : Option String
  deriving DecidableEq

/-- The parsed JSON reply of the SageMaker endpoint as consumed by
`call_sagemaker_endpoint`: `result.get('sentiment', 'UNKNOWN')` and
`result.get('confidence', 0.0)` — each field may be absent. -/
structure SMResponse where
  sentiment : Option String
  confidence : Option ℚ
  deriving DecidableEq

/-- The `sentiment_result` dictionary written to the `sentiment_analysis`
collection. -/
structure SentimentResult where
  review : String
  sentiment : String
  confidence : ℚ
  movie_title : Option String
  user_id : Option String
  model_version : String
  source_document_id : String
  deriving DecidableEq

/-- The result dictionary built by `call_sagemaker_endpoint` from the
incoming document and the endpoint's parsed response. -/
def call_sagemaker_endpoint (document : IncomingDoc) (response : SMResponse) :
    SentimentResult :=
  { review := document.review.getD ""
    sentiment := response.sentiment.getD "UNKNOWN"
    confidence := response.confidence.getD 0
    movie_title := document.movie_title
    user_id := document.user_id
    model_version := "sagemaker-distilbert"
    source_document_id := document.docId }

/-- `store_result_in_mongodb`: `collection.insert_one(sentiment_result)`
appends the result document to the `sentiment_analysis` collection. -/
def store_result_in_mongodb (collection : List SentimentResult)
    (sentiment_result : SentimentResult) : List SentimentResult :=
  collection ++ [sentiment_result]

/-! Claim theorems. -/

/-- C1: for a session with a positive expected count and a positive
deadline, if some poll taken strictly before the deadline reads a count
reaching baseline plus the expected count, `monitor_results` returns the
success outcome reporting the expected count, and the elapsed time at
return never exceeds the deadline plus one poll interval. -/
theorem C1_completed_before_deadline (g : Nat → Nat) (expected timeout : Int)
    (hexp : 0 < expected) (ht : 0 < timeout) (j : Nat)
    (hj : ((pollInterval * j : Nat) : Int) < timeout)
    (hreach : expected ≤ (g (j + 1) : Int) - (g 0 : Int)) :
    (monitor_results (pureCnt g) expected timeout).result =
      .ok (.completed expected) ∧
    ((monitor_results (pureCnt g) expected timeout).duration : Int) ≤
      timeout + pollInterval := by
  have h := monitorFrom_reach g expected timeout (g 0 : Int) j 0 none j
    (by omega) hj hreach
  rw [monitor_results_pure_eq]
  refine ⟨h.1, ?_⟩
  have h2 := h.2
  show ((monitorFrom (pureCnt g) expected timeout (g 0 : Int) none 0).duration : Int) ≤
    timeout + pollInterval
  simp only [pollInterval] at h2 hj ⊢
  omega

/-- Witness for C1 at `g i = i`, `expected = 1`, `timeout = 10`, `j = 0`. -/
theorem C1_witness :
    ((0 : Int) < 1 ∧ (0 : Int) < 10 ∧
      ((pollInterval * 0 : Nat) : Int) < 10 ∧
      (1 : Int) ≤ (((fun i => i) (0 + 1) : Nat) : Int) - (((fun i => i) 0 : Nat) : Int)) ∧
    (monitor_results (pureCnt fun i => i) 1 10).result = .ok (.completed 1) ∧
    ((monitor_results (pureCnt fun i => i) 1 10).duration : Int) ≤ 10 + pollInterval :=
  ⟨⟨by norm_num, by norm_num, by norm_num [pollInterval], by norm_num⟩,
    C1_completed_before_deadline (fun i => i) 1 10 (by norm_num) (by norm_num) 0
      (by norm_num [pollInterval]) (by norm_num)⟩

/-- C2: for a session with a positive deadline in which no poll taken
strictly before the deadline reaches the target, `monitor_results` returns
the timeout outcome as a value, reporting strictly fewer than the expected
count, and the elapsed time at return is within one poll interval of the
deadline. -/
theorem C2_timed_out_value (g : Nat → Nat) (expected timeout : Int)
    (ht : 0 < timeout)
    (hmiss : ∀ j : Nat, ((pollInterval * j : Nat) : Int) < timeout →
      (g (j + 1) : Int) - (g 0 : Int) < expected) :
    ∃ m : Int, m < expected ∧
      (monitor_results (pureCnt g) expected timeout).result = .ok (.timedOut m) ∧
      timeout ≤ ((monitor_results (pureCnt g) expected timeout).duration : Int) ∧
      ((monitor_results (pureCnt g) expected timeout).duration : Int) <
        timeout + pollInterval := by
  obtain ⟨m, hm, hres, hd1, hd2⟩ :=
    monitorFrom_timeout g expected timeout (g 0 : Int) hmiss timeout.toNat 0 none
      (by simp only [pollInterval]; omega)
      (by simp only [pollInterval]; omega)
  rw [monitor_results_pure_eq]
  exact ⟨m, hm, hres, hd1, hd2⟩

/-- Witness for C2 at `g _ = 5`, `expected = 1`, `timeout = 2`. -/
theorem C2_witness :
    ((0 : Int) < 2 ∧
      (∀ j : Nat, ((pollInterval * j : Nat) : Int) < 2 →
        (((fun _ => 5) (j + 1) : Nat) : Int) - (((fun _ => 5) 0 : Nat) : Int) < 1)) ∧
    ∃ m : Int, m < 1 ∧
      (monitor_results (pureCnt fun _ => 5) 1 2).result = .ok (.timedOut m) ∧
      (2 : Int) ≤ ((monitor_results (pureCnt fun _ => 5) 1 2).duration : Int) ∧
      ((monitor_results (pureCnt fun _ => 5) 1 2).duration : Int) <
        2 + pollInterval :=
  ⟨⟨by norm_num, fun j _ => by norm_num⟩,
    C2_timed_out_value (fun _ => 5) 1 2 (by norm_num) (fun j _ => by norm_num)⟩

/-- C3 counterexample: a session with `expectedNewCount = 0` but a
non-positive deadline raises `NameError` instead of returning the
immediate success outcome. -/
theorem C3_counterexample :
    (monitor_results (pureCnt fun _ => 5) 0 0).result = .error .nameError ∧
    (monitor_results (pureCnt fun _ => 5) 0 0).result ≠ .ok (.completed 0) := by
  have h : (monitor_results (pureCnt fun _ => 5) 0 0).result = .error .nameError := by
    rw [monitor_results_pure_eq,
      monitorFrom_exit_eq (pureCnt fun _ => 5) 0 0 ((5 : Nat) : Int) none 0
        (by norm_num)]
    rfl
  exact ⟨h, by rw [h]; simp⟩

/-- C3 (amended): provided the deadline is positive and the first poll's
count is not below the baseline, a session with `expectedNewCount = 0`
returns the success outcome reporting `0` on the first poll, with zero
elapsed time, no progress message (hence no sleep), and only the two count
queries. -/
theorem C3_amended_zero_expected_immediate (g : Nat → Nat) (timeout : Int)
    (ht : 0 < timeout) (hg : g 0 ≤ g 1) :
    monitor_results (pureCnt g) 0 timeout =
      { result := .ok (.completed 0), duration := 0, progress := [],
        ops := [.countDocuments, .countDocuments] } := by
  rw [monitor_results_pure_eq,
    monitorFrom_done_eq (pureCnt g) 0 timeout (g 0 : Int) none 0 (g 1)
      (by simpa using ht) rfl (by omega)]
  rfl

/-- Witness for C3's amended statement at `g _ = 5`, `timeout = 60`. -/
theorem C3_witness :
    ((0 : Int) < 60 ∧ (fun _ => 5 : Nat → Nat) 0 ≤ (fun _ => 5 : Nat → Nat) 1) ∧
    monitor_results (pureCnt fun _ => 5) 0 60 =
      { result := .ok (.completed 0), duration := 0, progress := [],
        ops := [.countDocuments, .countDocuments] } :=
  ⟨⟨by norm_num, le_rfl⟩,
    C3_amended_zero_expected_immediate (fun _ => 5) 60 (by norm_num) le_rfl⟩

/-- C4 counterexample: with readings `5, 3, …` (store count decreasing
after the baseline), the single progress report is `-2`: the reported
new-result count is negative and not clamped. -/
theorem C4_counterexample :
    (monitor_results (pureCnt fun i => 5 - 2 * i) 10 2).progress = [-2] ∧
    (-2 : Int) < 0 := by
  refine ⟨?_, by norm_num⟩
  simp only [monitor_results, pureCnt]
  rw [monitorFrom.eq_def]
  norm_num [pureCnt, pollInterval]
  rw [monitorFrom.eq_def]
  norm_num [pollInterval]

/-- C4 (amended): each progress report equals the raw difference
`current − baseline` with no clamping, so it can decrease or go negative
when the store count decreases; when the readings are non-decreasing the
successive reports are non-decreasing and non-negative. -/
theorem C4_amended_monotone_progress (g : Nat → Nat) (expected timeout : Int)
    (hmono : Monotone g) :
    (monitor_results (pureCnt g) expected timeout).progress.Pairwise (· ≤ ·) ∧
    ∀ x ∈ (monitor_results (pureCnt g) expected timeout).progress, (0 : Int) ≤ x := by
  obtain ⟨len, hlen⟩ := monitorFrom_progress_formula g expected timeout (g 0 : Int)
    timeout.toNat 0 none (by simp only [pollInterval]; omega)
  have hp : (monitor_results (pureCnt g) expected timeout).progress =
      (List.range len).map (fun i => (g (0 + i + 1) : Int) - (g 0 : Int)) := by
    rw [monitor_results_pure_eq]
    exact hlen
  rw [hp]
  constructor
  · rw [List.pairwise_map]
    refine List.Pairwise.imp ?_ (List.pairwise_lt_range len)
    intro a b hab
    have hm := hmono (show 0 + a + 1 ≤ 0 + b + 1 by omega)
    omega
  · intro x hx
    rw [List.mem_map] at hx
    obtain ⟨i, _, rfl⟩ := hx
    have hm := hmono (Nat.zero_le (0 + i + 1))
    omega

/-- Witness for C4's amended statement at constant readings `5`. -/
theorem C4_witness :
    (Monotone fun _ : Nat => (5 : Nat)) ∧
    ((monitor_results (pureCnt fun _ => 5) 10 2).progress.Pairwise (· ≤ ·) ∧
      ∀ x ∈ (monitor_results (pureCnt fun _ => 5) 10 2).progress, (0 : Int) ≤ x) :=
  ⟨monotone_const, C4_amended_monotone_progress (fun _ => 5) 10 2 monotone_const⟩

/-- C5 counterexample: a single transient failure of the count query on
the first poll aborts the session with the propagated exception — even
though every later reading would succeed — instead of retrying and
reaching a `Completed`/`TimedOut` outcome. -/
theorem C5_counterexample :
    (monitor_results
      (fun i => match i with
        | 0 => .ok 5
        | 1 => .error "connection reset"
        | _ => .ok 15) 10 60).result = .error (.storeError 1 "connection reset") := by
  simp only [monitor_results]
  rw [monitorFrom.eq_def]
  norm_num [pollInterval]

/-- C5 (amended): `monitor_results` performs no retries: if the baseline
query succeeds and every poll before `k` succeeds without reaching the
target, the first failing count query (at poll `k`, before the deadline)
immediately aborts the session, propagating the exception and its cause. -/
theorem C5_amended_error_propagates (cnt : Nat → Except String Nat)
    (expected timeout : Int) (b : Nat) (msg : String) (k : Nat)
    (hb : cnt 0 = .ok b)
    (hpre : ∀ j : Nat, j < k → ∃ c : Nat, cnt (j + 1) = .ok c ∧
      (c : Int) - (b : Int) < expected)
    (hk : ((pollInterval * k : Nat) : Int) < timeout)
    (herr : cnt (k + 1) = .error msg) :
    (monitor_results cnt expected timeout).result =
      .error (.storeError (k + 1) msg) := by
  have h := monitorFrom_store_error cnt expected timeout (b : Int) msg k 0 none k
    (by omega) (fun j _ hj2 => hpre j hj2) hk herr
  unfold monitor_results
  rw [hb]
  exact h

/-- A count stream whose baseline query succeeds and whose every poll
raises. -/
def failingCnt : Nat → Except String Nat :=
  fun i => match i with
    | 0 => .ok 5
    | _ => .error "boom"

/-- Witness for C5's amended statement: the first poll's failure aborts
the session with the propagated cause. -/
theorem C5_witness :
    (failingCnt 0 = .ok 5 ∧
      (∀ j : Nat, j < 0 → ∃ c : Nat, failingCnt (j + 1) = .ok c ∧
        (c : Int) - ((5 : Nat) : Int) < 10) ∧
      ((pollInterval * 0 : Nat) : Int) < 60 ∧
      failingCnt (0 + 1) = .error "boom") ∧
    (monitor_results failingCnt 10 60).result = .error (.storeError (0 + 1) "boom") :=
  ⟨⟨rfl, fun j hj => absurd hj (Nat.not_lt_zero j), by norm_num [pollInterval], rfl⟩,
    C5_amended_error_propagates failingCnt 10 60 5 "boom" 0 rfl
      (fun j hj => absurd hj (Nat.not_lt_zero j)) (by norm_num [pollInterval]) rfl⟩

/-- C6 counterexample: a session with `expectedNewCount = -1` is not
rejected: no configuration check exists, both count queries are performed,
and the call returns the success outcome on the first poll. -/
theorem C6_counterexample :
    monitor_results (pureCnt fun _ => 5) (-1) 60 =
      { result := .ok (.completed (-1)), duration := 0, progress := [],
        ops := [.countDocuments, .countDocuments] } := by
  simp only [monitor_results, pureCnt]
  rw [monitorFrom.eq_def]
  norm_num [pureCnt, pollInterval]

/-- C6 (amended): `monitor_results` validates nothing: a negative
expected count is accepted, the polling starts, and whenever the first
poll's count is not below the baseline the session completes successfully
at once; the poll interval is a fixed constant `2`, not a parameter. -/
theorem C6_amended_negative_expected_accepted (g : Nat → Nat)
    (expected timeout : Int) (hexp : expected < 0) (ht : 0 < timeout)
    (hg : g 0 ≤ g 1) :
    monitor_results (pureCnt g) expected timeout =
      { result := .ok (.completed expected), duration := 0, progress := [],
        ops := [.countDocuments, .countDocuments] } := by
  rw [monitor_results_pure_eq,
    monitorFrom_done_eq (pureCnt g) expected timeout (g 0 : Int) none 0 (g 1)
      (by simpa using ht) rfl (by omega)]
  rfl

/-- Witness for C6's amended statement at constant readings `5`,
`expected = -1`, `timeout = 60`. -/
theorem C6_witness :
    ((-1 : Int) < 0 ∧ (0 : Int) < 60 ∧
      (fun _ => 5 : Nat → Nat) 0 ≤ (fun _ => 5 : Nat → Nat) 1) ∧
    monitor_results (pureCnt fun _ => 5) (-1) 60 =
      { result := .ok (.completed (-1)), duration := 0, progress := [],
        ops := [.countDocuments, .countDocuments] } :=
  ⟨⟨by norm_num, by norm_num, le_rfl⟩,
    C6_amended_negative_expected_accepted (fun _ => 5) (-1) 60 (by norm_num)
      (by norm_num) le_rfl⟩

/-- C7: the baseline is the count read by the call itself (query `0` of
the session), and the progress count printed at poll `i` equals that
poll's reading minus this fixed baseline; records already present at call
time are therefore never counted as new. -/
theorem C7_baseline_delta (g : Nat → Nat) (expected timeout : Int) (i : Nat)
    (h : i < (monitor_results (pureCnt g) expected timeout).progress.length) :
    (monitor_results (pureCnt g) expected timeout).progress[i]? =
      some ((g (i + 1) : Int) - (g 0 : Int)) := by
  obtain ⟨len, hlen⟩ := monitorFrom_progress_formula g expected timeout (g 0 : Int)
    timeout.toNat 0 none (by simp only [pollInterval]; omega)
  have hp : (monitor_results (pureCnt g) expected timeout).progress =
      (List.range len).map (fun j => (g (0 + j + 1) : Int) - (g 0 : Int)) := by
    rw [monitor_results_pure_eq]
    exact hlen
  rw [hp] at h ⊢
  simp only [List.length_map, List.length_range] at h
  rw [List.getElem?_map, List.getElem?_range h]
  simp

/-- Witness for C7 at constant readings `5`, `expected = 10`,
`timeout = 2`: the single progress report equals reading minus baseline. -/
theorem C7_witness :
    0 < (monitor_results (pureCnt fun _ => 5) 10 2).progress.length ∧
    (monitor_results (pureCnt fun _ => 5) 10 2).progress[0]? =
      some ((((fun _ => 5 : Nat → Nat) (0 + 1) : Nat) : Int) -
        (((fun _ => 5 : Nat → Nat) 0 : Nat) : Int)) := by
  have hpr : (monitor_results (pureCnt fun _ => 5) 10 2).progress = [0] := by
    simp only [monitor_results, pureCnt]
    rw [monitorFrom.eq_def]
    norm_num [pureCnt, pollInterval]
    rw [monitorFrom.eq_def]
    norm_num [pollInterval]
  have hlen : 0 < (monitor_results (pureCnt fun _ => 5) 10 2).progress.length := by
    rw [hpr]
    norm_num
  exact ⟨hlen, C7_baseline_delta (fun _ => 5) 10 2 0 hlen⟩

/-- C8: the watcher is read-only with respect to the results collection:
on every exit path `monitor_results` performs only `count_documents`
operations, and replaying its operation trace over any collection contents
leaves them unchanged. -/
theorem C8_read_only (cnt : Nat → Except String Nat) (expected timeout : Int) :
    (∃ n : Nat, (monitor_results cnt expected timeout).ops =
      List.replicate n .countDocuments) ∧
    ∀ store : List String,
      applyOps (monitor_results cnt expected timeout).ops store = store := by
  have hops : ∃ n : Nat, (monitor_results cnt expected timeout).ops =
      List.replicate n .countDocuments := by
    unfold monitor_results
    cases hc : cnt 0 with
    | error e => exact ⟨1, rfl⟩
    | ok b =>
      obtain ⟨n, hn⟩ := monitorFrom_ops_count cnt expected timeout (b : Int) none 0
      exact ⟨n + 1, congrArg (List.cons StoreOp.countDocuments) hn⟩
  obtain ⟨n, hn⟩ := hops
  refine ⟨⟨n, hn⟩, fun store => ?_⟩
  rw [hn, applyOps_replicate_count]

/-- Example incoming review document. -/
def demoDoc : IncomingDoc :=
  { docId := "doc1", review := some "Great movie", movie_title := some "M",
    user_id := some "u1" }

/-- An endpoint response whose confidence field exceeds `1`. -/
def overConfidentResp : SMResponse :=
  { sentiment := some "POSITIVE", confidence := some 2 }

/-- An endpoint response with confidence inside the unit interval. -/
def demoResp : SMResponse :=
  { sentiment := some "POSITIVE", confidence := some (9 / 10) }

/-- C9 counterexample: when the endpoint response carries
`confidence = 2`, the document written to the `sentiment_analysis`
collection has confidence `2`, outside `[0,1]`: the Lambda does not clamp
or validate the value. -/
theorem C9_counterexample :
    (call_sagemaker_endpoint demoDoc overConfidentResp).confidence = 2 ∧
    store_result_in_mongodb [] (call_sagemaker_endpoint demoDoc overConfidentResp) =
      [call_sagemaker_endpoint demoDoc overConfidentResp] ∧
    ¬ ((call_sagemaker_endpoint demoDoc overConfidentResp).confidence ≤ 1) := by
  refine ⟨rfl, rfl, ?_⟩
  norm_num [call_sagemaker_endpoint, overConfidentResp]

/-- C9 (amended): the Lambda stores the endpoint's confidence value
verbatim (`0.0` when the field is absent); hence whenever the response's
confidence, when present, lies in `[0,1]`, every document in the
collection after the store either was already present or has confidence in
`[0,1]`. -/
theorem C9_amended_confidence_passthrough (document : IncomingDoc)
    (response : SMResponse) (collection : List SentimentResult)
    (hresp : ∀ c : ℚ, response.confidence = some c → 0 ≤ c ∧ c ≤ 1) :
    (call_sagemaker_endpoint document response).confidence =
      response.confidence.getD 0 ∧
    ∀ r ∈ store_result_in_mongodb collection
        (call_sagemaker_endpoint document response),
      r ∈ collection ∨ (0 ≤ r.confidence ∧ r.confidence ≤ 1) := by
  refine ⟨rfl, ?_⟩
  intro r hr
  rw [store_result_in_mongodb, List.mem_append, List.mem_singleton] at hr
  rcases hr with hin | rfl
  · exact Or.inl hin
  · right
    cases hco : response.confidence with
    | none => norm_num [call_sagemaker_endpoint, hco]
    | some c =>
      have hc := hresp c hco
      simpa [call_sagemaker_endpoint, hco] using hc

/-- Witness for C9's amended statement at a response with confidence
`9/10`. -/
theorem C9_witness :
    (∀ c : ℚ, demoResp.confidence = some c → 0 ≤ c ∧ c ≤ 1) ∧
    ((call_sagemaker_endpoint demoDoc demoResp).confidence =
        demoResp.confidence.getD 0 ∧
      ∀ r ∈ store_result_in_mongodb [] (call_sagemaker_endpoint demoDoc demoResp),
        r ∈ ([] : List SentimentResult) ∨ (0 ≤ r.confidence ∧ r.confidence ≤ 1)) := by
  have hresp : ∀ c : ℚ, demoResp.confidence = some c → 0 ≤ c ∧ c ≤ 1 := by
    intro c hc
    simp only [demoResp, Option.some.injEq] at hc
    subst hc
    norm_num
  exact ⟨hresp, C9_amended_confidence_passthrough demoDoc demoResp [] hresp⟩

/-- C10: with a non-positive timeout and a reachable store, the loop body
never runs and the timeout-report path raises `NameError` (reading the
never-assigned `new_results` local) instead of returning the `False`
outcome. -/
theorem C10_nonpositive_timeout_name_error (cnt : Nat → Except String Nat)
    (expected timeout : Int) (b : Nat)
    (hb : cnt 0 = .ok b) (ht : timeout ≤ 0) :
    (monitor_results cnt expected timeout).result = .error .nameError := by
  unfold monitor_results
  rw [hb]
  show (monitorFrom cnt expected timeout (b : Int) none 0).result = _
  rw [monitorFrom_exit_eq cnt expected timeout (b : Int) none 0
    (by push_cast; omega)]
  rfl

/-- Witness for C10 at constant readings `0`, `expected = 10`,
`timeout = 0`. -/
theorem C10_witness :
    (pureCnt (fun _ => 0) 0 = .ok 0 ∧ (0 : Int) ≤ 0) ∧
    (monitor_results (pureCnt fun _ => 0) 10 0).result = .error .nameError :=
  ⟨⟨rfl, le_rfl⟩,
    C10_nonpositive_timeout_name_error (pureCnt fun _ => 0) 10 0 0 rfl le_rfl⟩

end SentimentPipeline
